import Mathlib

/-!
Shallow embedding of the financial-statement-analyzer extraction engine
(`smart_document_processor_v2.py`, `document_processor.py`, `ocr_extractor.py`,
`text_extractor.py`).  Strings are modelled as `List Char`, Python floats as
`ℚ` (all amounts arise from decimal-string parsing), dictionaries as
structures with `Option` fields for keys that may be absent.
-/

/-- Python `str.isspace` characters relevant to `\s` (ASCII). -/
def pyIsSpace (c : Char) : Bool :=
  c = ' ' || c = '\t' || c = '\n' || c = '\r' || c = '\x0b' || c = '\x0c'

/-- Python `str.strip()` with no arguments: trim whitespace from both ends. -/
def pyStrip (s : List Char) : List Char :=
  ((s.dropWhile pyIsSpace).reverse.dropWhile pyIsSpace).reverse

/-- Python `str.lower()` (ASCII letters only, which is all the source uses). -/
def pyLower (s : List Char) : List Char :=
  s.map Char.toLower

/-- Python `sub in s` substring membership. -/
def strIn (sub s : List Char) : Bool :=
  (List.range (s.length + 1)).any (fun i => sub.isPrefixOf (s.drop i))

/-- Python `s.startswith(p)`. -/
def pyStartsWith (s p : List Char) : Bool :=
  p.isPrefixOf s

/-- Helper of `pySplit`: accumulates the current token (reversed). -/
def pySplitAux : List Char → List Char → List (List Char)
  | [], acc => if acc.isEmpty then [] else [acc.reverse]
  | c :: cs, acc =>
    if pyIsSpace c then
      if acc.isEmpty then pySplitAux cs [] else acc.reverse :: pySplitAux cs []
    else pySplitAux cs (c :: acc)

/-- Python `str.split()` with no arguments: split on whitespace runs,
dropping empty pieces. -/
def pySplit (s : List Char) : List (List Char) :=
  pySplitAux s []

/-- Python `' '.join(parts)`. -/
def joinSpace : List (List Char) → List Char
  | [] => []
  | [p] => p
  | p :: ps => p ++ ' ' :: joinSpace ps

/-- Python `s.zfill(2)` for the day strings used by the source. -/
def zfill2 (s : List Char) : List Char :=
  if s.length ≥ 2 then s else List.replicate (2 - s.length) '0' ++ s

/-- Digit value of an ASCII digit character. -/
def digitVal (c : Char) : Nat := c.toNat - 48

/-- Natural-number value of a digit string (most significant first). -/
def digitsVal (cs : List Char) : Nat :=
  cs.foldl (fun a c => 10 * a + digitVal c) 0

/-- Python `float(s)` on an unsigned body: digits with at most one `.` and at
least one digit succeed (e.g. `12.`, `.5`, `12`); anything else raises. -/
def parseUnsignedFloat (cs : List Char) : Option ℚ :=
  if cs.all (fun c => c.isDigit || c = '.') && cs.count '.' ≤ 1 && cs.any Char.isDigit then
    let intPart := cs.takeWhile Char.isDigit
    let rest := cs.dropWhile Char.isDigit
    let fracPart := match rest with | '.' :: t => t | _ => []
    some ((digitsVal intPart : ℚ) + (digitsVal fracPart : ℚ) / ((10 : ℚ) ^ fracPart.length))
  else none

/-- Python `float(s)` on the character set reachable in `clean_amount`
(digits, `.`, `-`): an optional single leading minus, then an unsigned body. -/
def parsePyFloat (cs : List Char) : Option ℚ :=
  match cs with
  | '-' :: t => (parseUnsignedFloat t).map (fun v => -v)
  | _ => parseUnsignedFloat cs

/-- `BankProcessor.clean_amount`: strip currency symbols/commas, handle
parenthetical and leading-minus negatives, unparsable input maps to 0.0. -/
def clean_amount (s : List Char) : ℚ :=
  if s.isEmpty then 0
  else
    let isNegative := s.contains '(' || pyStartsWith s ['-']
    let cleaned := s.filter fun c =>
      c.isDigit || c = '.' || c = ',' || c = '(' || c = ')' || c = '-'
    let finalCleaned := cleaned.filter fun c => !(c = ',' || c = '(' || c = ')')
    match parsePyFloat finalCleaned with
    | none => 0
    | some v =>
      if pyStartsWith finalCleaned ['-'] then v
      else if isNegative then -v else v

/-! ## `BankProcessor.clean_date`

`datetime.strptime` is modelled format by format: each format parser follows
the regex CPython compiles for it (`%d` is `3[01]|[12]\d|0[1-9]|[1-9]`,
`%m` is `1[0-2]|0[1-9]|[1-9]`, `%Y` is four digits, `%b` is a
case-insensitive month abbreviation, a literal space is `\s+`), the whole
string must be consumed, and the resulting date must be constructible
(day valid for the month; default year 1900 when the format has no year). -/

/-- `%b`: case-insensitive 3-letter month abbreviation, C locale. -/
def monthAbbrevNum (s : List Char) : Option Nat :=
  if s = "jan".data then some 1 else if s = "feb".data then some 2
  else if s = "mar".data then some 3 else if s = "apr".data then some 4
  else if s = "may".data then some 5 else if s = "jun".data then some 6
  else if s = "jul".data then some 7 else if s = "aug".data then some 8
  else if s = "sep".data then some 9 else if s = "oct".data then some 10
  else if s = "nov".data then some 11 else if s = "dec".data then some 12
  else none

/-- Parse `%b` (three chars, looked up case-insensitively). -/
def parseMonthB : List Char → Option (Nat × List Char)
  | a :: b :: c :: rest =>
    match monthAbbrevNum (pyLower [a, b, c]) with
    | some m => some (m, rest)
    | none => none
  | _ => none

/-- Candidate parses of `%d` (`3[01]|[12]\d|0[1-9]|[1-9]`) in the
alternation's backtracking order. -/
def dayCandidates (cs : List Char) : List (Nat × List Char) :=
  let two : List (Nat × List Char) :=
    match cs with
    | c1 :: c2 :: rest =>
      if c1 = '3' && (c2 = '0' || c2 = '1') then [(digitsVal [c1, c2], rest)]
      else if (c1 = '1' || c1 = '2') && c2.isDigit then [(digitsVal [c1, c2], rest)]
      else if c1 = '0' && (c2.isDigit && c2 ≠ '0') then [(digitVal c2, rest)]
      else []
    | _ => []
  let one : List (Nat × List Char) :=
    match cs with
    | c1 :: rest => if c1.isDigit && c1 ≠ '0' then [(digitVal c1, rest)] else []
    | _ => []
  two ++ one

/-- Candidate parses of `%m` (`1[0-2]|0[1-9]|[1-9]`) in backtracking order. -/
def monthCandidates (cs : List Char) : List (Nat × List Char) :=
  let two : List (Nat × List Char) :=
    match cs with
    | c1 :: c2 :: rest =>
      if c1 = '1' && (c2 = '0' || c2 = '1' || c2 = '2') then [(digitsVal [c1, c2], rest)]
      else if c1 = '0' && (c2.isDigit && c2 ≠ '0') then [(digitVal c2, rest)]
      else []
    | _ => []
  let one : List (Nat × List Char) :=
    match cs with
    | c1 :: rest => if c1.isDigit && c1 ≠ '0' then [(digitVal c1, rest)] else []
    | _ => []
  two ++ one

/-- Parse `%Y`: exactly four digits. -/
def parseYear4 : List Char → Option (Nat × List Char)
  | a :: b :: c :: d :: rest =>
    if a.isDigit && b.isDigit && c.isDigit && d.isDigit then
      some (digitsVal [a, b, c, d], rest)
    else none
  | _ => none

/-- A literal space in a strptime format matches `\s+`. -/
def parseWs1 (cs : List Char) : Option (List Char) :=
  match cs with
  | c :: rest => if pyIsSpace c then some (rest.dropWhile pyIsSpace) else none
  | [] => none

/-- A literal character in a strptime format. -/
def parseLit (c : Char) : List Char → Option (List Char)
  | x :: rest => if x = c then some rest else none
  | [] => none

def isLeapYear (y : Nat) : Bool :=
  (y % 4 = 0 && y % 100 ≠ 0) || y % 400 = 0

def daysInMonth (y m : Nat) : Nat :=
  if m = 2 then (if isLeapYear y then 29 else 28)
  else if m = 4 || m = 6 || m = 9 || m = 11 then 30 else 31

/-- Validity check done by the `datetime` constructor after the regex match. -/
def validYMD (y m d : Nat) : Bool :=
  1 ≤ d && d ≤ daysInMonth y m

/-- Format `'%b %d %Y'`. -/
def fmtBspDspY (cs : List Char) : Option (Nat × Nat × Nat) :=
  (parseMonthB cs).bind fun p1 =>
  (parseWs1 p1.2).bind fun r2 =>
  (dayCandidates r2).findSome? fun p2 =>
  (parseWs1 p2.2).bind fun r4 =>
  (parseYear4 r4).bind fun p3 =>
  if p3.2.isEmpty then some (p1.1, p2.1, p3.1) else none

/-- Format `'%b.%d %Y'`. -/
def fmtBdotDspY (cs : List Char) : Option (Nat × Nat × Nat) :=
  (parseMonthB cs).bind fun p1 =>
  (parseLit '.' p1.2).bind fun r2 =>
  (dayCandidates r2).findSome? fun p2 =>
  (parseWs1 p2.2).bind fun r4 =>
  (parseYear4 r4).bind fun p3 =>
  if p3.2.isEmpty then some (p1.1, p2.1, p3.1) else none

/-- Format `'%b-%d %Y'`. -/
def fmtBdashDspY (cs : List Char) : Option (Nat × Nat × Nat) :=
  (parseMonthB cs).bind fun p1 =>
  (parseLit '-' p1.2).bind fun r2 =>
  (dayCandidates r2).findSome? fun p2 =>
  (parseWs1 p2.2).bind fun r4 =>
  (parseYear4 r4).bind fun p3 =>
  if p3.2.isEmpty then some (p1.1, p2.1, p3.1) else none

/-- Format `'%b %d'` (year defaults to 1900). -/
def fmtBspD (cs : List Char) : Option (Nat × Nat × Nat) :=
  (parseMonthB cs).bind fun p1 =>
  (parseWs1 p1.2).bind fun r2 =>
  (dayCandidates r2).findSome? fun p2 =>
  if p2.2.isEmpty then some (p1.1, p2.1, 1900) else none

/-- Format `'%b.%d'` (year defaults to 1900). -/
def fmtBdotD (cs : List Char) : Option (Nat × Nat × Nat) :=
  (parseMonthB cs).bind fun p1 =>
  (parseLit '.' p1.2).bind fun r2 =>
  (dayCandidates r2).findSome? fun p2 =>
  if p2.2.isEmpty then some (p1.1, p2.1, 1900) else none

/-- Format `'%m/%d/%Y'`. -/
def fmtMslDslY (cs : List Char) : Option (Nat × Nat × Nat) :=
  (monthCandidates cs).findSome? fun p1 =>
  (parseLit '/' p1.2).bind fun r2 =>
  (dayCandidates r2).findSome? fun p2 =>
  (parseLit '/' p2.2).bind fun r4 =>
  (parseYear4 r4).bind fun p3 =>
  if p3.2.isEmpty then some (p1.1, p2.1, p3.1) else none

/-- Format `'%d/%m/%Y'`. -/
def fmtDslMslY (cs : List Char) : Option (Nat × Nat × Nat) :=
  (dayCandidates cs).findSome? fun p1 =>
  (parseLit '/' p1.2).bind fun r2 =>
  (monthCandidates r2).findSome? fun p2 =>
  (parseLit '/' p2.2).bind fun r4 =>
  (parseYear4 r4).bind fun p3 =>
  if p3.2.isEmpty then some (p2.1, p1.1, p3.1) else none

/-- Format `'%m/%d'` (year defaults to 1900). -/
def fmtMslD (cs : List Char) : Option (Nat × Nat × Nat) :=
  (monthCandidates cs).findSome? fun p1 =>
  (parseLit '/' p1.2).bind fun r2 =>
  (dayCandidates r2).findSome? fun p2 =>
  if p2.2.isEmpty then some (p1.1, p2.1, 1900) else none

/-- One strptime attempt: regex parse, then the `datetime` constructor's
validity check. -/
def strptimeAttempt (p : Option (Nat × Nat × Nat)) : Option (Nat × Nat) :=
  match p with
  | some (m, d, y) => if validYMD y m d then some (m, d) else none
  | none => none

/-- The format list of `clean_date`, tried in order on the stripped input. -/
def tryStrptimeFormats (cs : List Char) : Option (Nat × Nat) :=
  [fmtBspDspY, fmtBdotDspY, fmtBdashDspY, fmtBspD, fmtBdotD,
   fmtMslDslY, fmtDslMslY, fmtMslD].findSome? fun f => strptimeAttempt (f cs)

/-- `strftime('%m-%d')` zero-padding of a field. -/
def pad2 (n : Nat) : List Char :=
  zfill2 (Nat.toDigits 10 n)

/-- The `month_map` dictionary inside `clean_date`. -/
def monthMapLookup (s : List Char) : Option (List Char) :=
  if s = "jan".data then some "01".data else if s = "feb".data then some "02".data
  else if s = "mar".data then some "03".data else if s = "apr".data then some "04".data
  else if s = "may".data then some "05".data else if s = "jun".data then some "06".data
  else if s = "jul".data then some "07".data else if s = "aug".data then some "08".data
  else if s = "sep".data then some "09".data else if s = "oct".data then some "10".data
  else if s = "nov".data then some "11".data else if s = "dec".data then some "12".data
  else none

/-- Match of `([A-Za-z]{3})\.?(\d{1,2})` at the head of the input:
three ASCII letters, an optional dot, then one or two digits (greedy). -/
def monthDayMatchAt (cs : List Char) : Option (List Char × List Char) :=
  match cs with
  | a :: b :: c :: rest =>
    if a.isAlpha && b.isAlpha && c.isAlpha then
      let digits : List Char → Option (List Char) := fun r =>
        match r with
        | d1 :: d2 :: _ =>
          if d1.isDigit then some (if d2.isDigit then [d1, d2] else [d1]) else none
        | [d1] => if d1.isDigit then some [d1] else none
        | [] => none
      match rest with
      | '.' :: r2 =>
        match digits r2 with
        | some ds => some ([a, b, c], ds)
        | none => none
      | r2 =>
        match digits r2 with
        | some ds => some ([a, b, c], ds)
        | none => none
    else none
  | _ => none

/-- `re.search` of the fallback `month_day_pattern`: leftmost match. -/
def monthDayPatternSearch : List Char → Option (List Char × List Char)
  | [] => none
  | c :: cs =>
    match monthDayMatchAt (c :: cs) with
    | some r => some r
    | none => monthDayPatternSearch cs

/-- `BankProcessor.clean_date`: standardize a date string to MM-DD. -/
def clean_date (s : List Char) : List Char :=
  if s.isEmpty then "01-01".data
  else
    match tryStrptimeFormats (pyStrip s) with
    | some (m, d) => pad2 m ++ '-' :: pad2 d
    | none =>
      match monthDayPatternSearch (pyLower s) with
      | some (mStr, dayStr) =>
        match monthMapLookup (pyLower (mStr.take 3)) with
        | some mm => mm ++ '-' :: zfill2 dayStr
        | none => (pyStrip s).take 5
      | none => (pyStrip s).take 5

example : clean_date "Sep 28 2024".data = "09-28".data := by decide
example : clean_date "Nov.3".data = "11-03".data := by decide
example : clean_date "09/28".data = "09-28".data := by decide
example : clean_date "28/09/2024".data = "09-28".data := by decide
example : clean_date "07/02".data = "07-02".data := by decide
example : clean_date "09/28xyz".data = "09/28".data := by decide
example : clean_date "hello world".data = "hello".data := by decide
example : clean_date "".data = "01-01".data := by decide

/-! ## Data model

A transaction record is a Python dict; fields that some extractor may leave
unset are `Option`s.  The document envelope mirrors the dict returned by
`SmartDocumentProcessor.process_document`. -/

structure Tx where
  date : List Char
  description : List Char
  amount : ℚ
  balance : Option ℚ := none
  page : Nat
  bank : List Char
  confidence : ℚ
  transaction_type : Option (List Char) := none
  is_spending : Option Bool := none
  abs_amount : Option ℚ := none
  processing_method : Option (List Char) := none
  confidence_level : Option (List Char) := none
  deriving Repr

structure DocResult where
  processing_method : List Char
  transactions : List Tx
  confidence : List Char
  bank : Option (List Char) := none
  transaction_count : Option Nat := none
  debit_count : Option Nat := none
  credit_count : Option Nat := none
  spending_transactions : Option (List Tx) := none
  error : Option (List Char) := none
  deriving Repr

/-- The static credit-card table of
`SmartDocumentProcessor._is_credit_card_bank`. -/
def credit_card_banks : List (List Char) :=
  ["BMO", "RBC Visa", "Scotia Credit Card", "Amex", "Simplii", "Wise",
   "TD Credit Card", "Tangerine Credit Card", "CIBC Visa"].map String.data

def is_credit_card_bank (bank_name : List Char) : Bool :=
  credit_card_banks.contains bank_name

/-- The per-record normalization pass inside
`SmartDocumentProcessor.process_document`: sign-based default
classification when the extractor set neither field, then the standardized
`abs_amount` / `processing_method` / `confidence_level` fields. -/
def classifyTx (tx : Tx) : Tx :=
  let bank_name := tx.bank
  let amount := tx.amount
  let tx1 :=
    if tx.transaction_type.isNone || tx.is_spending.isNone then
      if is_credit_card_bank bank_name then
        { tx with
          transaction_type := some (if amount > 0 then "debit".data else "credit".data)
          is_spending := some (decide (amount > 0)) }
      else
        { tx with
          transaction_type := some (if amount < 0 then "debit".data else "credit".data)
          is_spending := some (decide (amount < 0)) }
    else tx
  { tx1 with
    abs_amount := some |amount|
    processing_method :=
      some ((pyLower bank_name).map (fun c => if c = ' ' then '_' else c) ++ "_processor".data)
    confidence_level :=
      some (if tx1.confidence ≥ 0.9 then "high".data else "medium".data) }

/-- `SmartDocumentProcessor.process_document` once a processor was
identified and its extractor returned `extracted` without raising. -/
def process_document_success (bank_name : List Char) (extracted : List Tx) : DocResult :=
  let txs := extracted.map classifyTx
  { processing_method := bank_name ++ "_processor".data
    transactions := txs
    confidence := "high".data
    bank := some bank_name
    transaction_count := some txs.length
    debit_count := some (txs.filter fun tx => tx.transaction_type = some "debit".data).length
    credit_count := some (txs.filter fun tx => tx.transaction_type = some "credit".data).length
    spending_transactions := some (txs.filter fun tx => tx.is_spending = some true)
    error := none }

/-- `SmartDocumentProcessor.process_document` when `identify_bank`
returned no processor. -/
def process_document_unidentified : DocResult :=
  { processing_method := "unidentified".data
    transactions := []
    confidence := "low".data
    error := some "No suitable processor found".data }

/-! ## `TDProcessor` (section-header driven format) -/

/-- Full match of the amount group `[\d,]+\.?\d{2}` (also the Tangerine
per-token amount pattern): a nonempty digit/comma run, an optional dot,
then exactly two digits. -/
def amtGroupFull (cs : List Char) : Bool :=
  let n := cs.length
  (cs.drop (n - 2)).all Char.isDigit &&
    (let mid := cs.take (n - 2)
     if mid.getLast? = some '.' then
       let p := mid.dropLast
       !p.isEmpty && p.all fun c => c.isDigit || c = ','
     else
       !mid.isEmpty && mid.all fun c => c.isDigit || c = ',')

/-- Backtracking split of a TD line's tail along
`\s+(.*?)\s+([\d,]+\.?\d{2})$`: the leading `\s+` is greedy, the
description group lazy, the second `\s+` greedy, and the amount group is
anchored at the end of the line.  Returns (description, amount) groups. -/
def tdTailSplit (cs0 : List Char) : Option (List Char × List Char) :=
  let k := (cs0.takeWhile pyIsSpace).length
  (List.range k).findSome? fun t =>
    let j := k - t
    let afterW := cs0.drop j
    (List.range (afterW.length + 1)).findSome? fun dlen =>
      let d := afterW.take dlen
      let r := afterW.drop dlen
      let smax := (r.takeWhile pyIsSpace).length
      (List.range smax).findSome? fun t2 =>
        let slen := smax - t2
        let a := r.drop slen
        if amtGroupFull a then some (d, a) else none

/-- `TDProcessor._is_td_transaction` (`^\d{2}/\d{2}`). -/
def isTdTransaction : List Char → Bool
  | d1 :: d2 :: sl :: d3 :: d4 :: _ =>
    d1.isDigit && d2.isDigit && sl = '/' && d3.isDigit && d4.isDigit
  | _ => false

/-- `TDProcessor._parse_td_transaction`: match
`^(\d{2}/\d{2})\s+(.*?)\s+([\d,]+\.?\d{2})$` and classify by the active
section, not by the line's content. -/
def parse_td_transaction (line : List Char) (page_num : Nat)
    (sect : List Char) : Option Tx :=
  match line with
  | d1 :: d2 :: sl :: d3 :: d4 :: rest =>
    if d1.isDigit && d2.isDigit && sl = '/' && d3.isDigit && d4.isDigit then
      match tdTailSplit rest with
      | some (desc, amt) =>
        let date := clean_date [d1, d2, sl, d3, d4]
        let description := pyStrip desc
        let amount := clean_amount amt
        let cls :=
          if sect = "credits".data then ("credit".data, false)
          else if sect = "debits".data then ("debit".data, true)
          else ("credit".data, false)
        some { date := date, description := description, amount := amount,
               page := page_num, bank := "TD Bank".data, confidence := 0.9,
               transaction_type := some cls.1, is_spending := some cls.2,
               abs_amount := some |amount|,
               processing_method := some "td_bank_processor".data,
               confidence_level := some "high".data }
      | none => none
    else none
  | _ => none

/-- One page of `TDProcessor.extract_transactions`: the line loop with the
`current_section` state. -/
def tdPageLoop (page_num : Nat) : List (List Char) → Option (List Char) → List Tx
  | [], _ => []
  | l :: ls, sect =>
    let line := pyStrip l
    if pyStrip line = "Credits".data then
      tdPageLoop page_num ls (some "credits".data)
    else if pyStrip line = "Debits".data then
      tdPageLoop page_num ls (some "debits".data)
    else if strIn "DAILY ACCOUNT ACTIVITY".data line then
      tdPageLoop page_num ls (some "credits".data)
    else
      match sect with
      | some s =>
        if isTdTransaction line then
          match parse_td_transaction line page_num s with
          | some tx => tx :: tdPageLoop page_num ls sect
          | none => tdPageLoop page_num ls sect
        else tdPageLoop page_num ls sect
      | none => tdPageLoop page_num ls sect

example :
    (parse_td_transaction "07/02 CHECK D, 59 CONTRACTORS 3,750.00".data 1
      "debits".data).map (fun tx => (tx.date, tx.description, tx.transaction_type))
    = some ("07-02".data, "CHECK D, 59 CONTRACTORS".data, some "debit".data) := by
  decide

/-! ## `SmartDocumentProcessor.identify_bank` and the processor registry -/

def bmo_can_process (text filename : List Char) : Bool :=
  ["BMO", "MasterCard", "CardNumber", "CustomerName"].any fun i => strIn i.data text

def eq_bank_can_process (text filename : List Char) : Bool :=
  ["EQ Bank", "Cash Card", "Equitable Bank"].any fun i => strIn i.data text

def td_can_process (text filename : List Char) : Bool :=
  ["STATEMENT OF ACCOUNT", "TD Personal", "Primary Account"].any fun i => strIn i.data text

def tangerine_can_process (text filename : List Char) : Bool :=
  ["www.tangerine.ca", "Orange Key", "Tangerine Savings"].any fun i => strIn i.data text

def rbc_bank_can_process (text filename : List Char) : Bool :=
  (["Royal Bank of Canada", "RBC Day to Day Banking", "account statement"].any
    fun i => strIn i.data text) && !strIn "visa".data (pyLower filename)

def rbc_visa_can_process (text filename : List Char) : Bool :=
  (["RBC Visa", "Visa Infinite", "Avion"].any fun i => strIn i.data text) &&
    strIn "visa".data (pyLower filename)

def cibc_can_process (text filename : List Char) : Bool :=
  ["CIBC Account Statement", "CIBC", "Branch transit number"].any fun i => strIn i.data text

def simplii_can_process (text filename : List Char) : Bool :=
  ["Simplii Financial", "Cash Back Visa", "simplii.com"].any fun i => strIn i.data text

def amex_can_process (text filename : List Char) : Bool :=
  (["AmericanExpress", "Amex Bank of Canada", "Statement of Account"].any
    fun i => strIn i.data text) && strIn "amex".data (pyLower filename)

def scotiabank_can_process (text filename : List Char) : Bool :=
  if strIn "scotia".data (pyLower filename) && strIn "bank".data (pyLower filename) then
    true
  else if ["scotiabank", "scotia"].any (fun i => strIn i.data (pyLower text)) then
    (["deposits", "withdrawals", "mb-billpayment", "service charge",
      "mb-transfer", "chequing", "savings", "balance brought forward"].any
      fun t => strIn t.data (pyLower text)) &&
    !(["scene", "credit card", "minimum payment", "credit limit"].any
      fun t => strIn t.data (pyLower text))
  else false

def scotia_credit_can_process (text filename : List Char) : Bool :=
  if ["scotia", "scotiabank"].any (fun i => strIn i.data (pyLower text)) then
    ["scene", "credit card", "minimum payment", "credit limit"].any
      fun t => strIn t.data (pyLower text)
  else false

def wise_can_process (text filename : List Char) : Bool :=
  if strIn "wise".data (pyLower filename) then true
  else
    ["Wise", "wise.com", "Credit Card Statement", "xxxx-xxxx-xxxx"].any
      fun i => strIn i.data text

def tangerine_credit_can_process (text filename : List Char) : Bool :=
  (["Tangerine Money-Back Credit Card", "Money-Back Credit Card",
    "Here's your latest statement for your Tangerine"].any
    fun i => strIn i.data text) &&
  (["Credit limit", "Cash advance limit", "Money-Back Rewards",
    "Transaction Posted Description Category Amount Reward"].any
    fun t => strIn t.data text) &&
  !(["Transaction Date", "Transaction Description", "Orange Key",
     "Interest Paid", "Opening Balance", "Closing Balance"].any
    fun t => strIn t.data text)

def cibc_visa_can_process (text filename : List Char) : Bool :=
  (["CIBC U.S. Dollar Aventura", "Aventura Gold Visa Card",
    "CIBC Visa", "U.S. Dollar Aventura"].any fun i => strIn i.data text) &&
  (["Amount Due", "Minimum Payment", "Credit Card", "Aventura Points",
    "Trans Post", "date date Description Amount"].any fun t => strIn t.data text) &&
  !(["Opening Balance", "Closing Balance", "Direct Deposit",
     "Account Balance Summary", "DAILY BALANCE"].any fun t => strIn t.data text)

def bmo_account_can_process (text filename : List Char) : Bool :=
  (["Your Everyday Banking statement", "Everyday Banking",
    "Primary Chequing Account", "BMO Bank of Montreal"].any
    fun i => strIn i.data text) &&
  (["deducted($)", "added($)", "Opening", "Closing totals",
    "Primary Chequing", "INTERAC e-Transfer", "Direct Deposit"].any
    fun t => strIn t.data text) &&
  !(["Previous Balance", "Credit Limit", "Minimum Payment",
     "Payment Due Date", "Interest Rate", "Cash Advance"].any
    fun t => strIn t.data text)

def td_credit_can_process (text filename : List Char) : Bool :=
  (["TD CASH BACK CARD", "CASH BACK CARD", "TD Credit Card"].any
    fun i => strIn i.data text) &&
  (["PREVIOUS STATEMENT BALANCE", "Minimum Payment", "Credit Card",
    "ACTIVITY DESCRIPTION", "Cash Back Dollars"].any fun t => strIn t.data text)

/-- A registry entry: applicability predicate plus name. -/
structure Processor where
  bank_name : List Char
  can_process : List Char → List Char → Bool

/-- `SmartDocumentProcessor.__init__`: the ordered processor registry. -/
def registry : List Processor :=
  [⟨"BMO Account".data, bmo_account_can_process⟩,
   ⟨"BMO".data, bmo_can_process⟩,
   ⟨"EQ Bank".data, eq_bank_can_process⟩,
   ⟨"TD Bank".data, td_can_process⟩,
   ⟨"TD Credit Card".data, td_credit_can_process⟩,
   ⟨"Tangerine".data, tangerine_can_process⟩,
   ⟨"Tangerine Credit Card".data, tangerine_credit_can_process⟩,
   ⟨"RBC Bank".data, rbc_bank_can_process⟩,
   ⟨"RBC Visa".data, rbc_visa_can_process⟩,
   ⟨"Simplii".data, simplii_can_process⟩,
   ⟨"CIBC Visa".data, cibc_visa_can_process⟩,
   ⟨"CIBC".data, cibc_can_process⟩,
   ⟨"Amex".data, amex_can_process⟩,
   ⟨"Scotiabank".data, scotiabank_can_process⟩,
   ⟨"Scotia Credit Card".data, scotia_credit_can_process⟩,
   ⟨"Wise".data, wise_can_process⟩]

/-- The `for processor in self.processors: if processor.can_process(...):
return processor` loop of `identify_bank`. -/
def identify_bank_go (text filename : List Char) : List Processor → Option Processor
  | [] => none
  | p :: ps =>
    if p.can_process text filename then some p else identify_bank_go text filename ps

/-- `SmartDocumentProcessor.identify_bank` given the sampled text of the
first pages and the basename of the file. -/
def identify_bank (text filename : List Char) : Option Processor :=
  identify_bank_go text filename registry

/-! ## `DocumentProcessor._detect_document_type` -/

/-- Average stripped text length over up to three sampled pages.  A page is
its `extract_text()` result, `none` when extraction returns `None`. -/
def avgTextPerPage (pages : List (Option (List Char))) : ℚ :=
  let sample_pages := min 3 pages.length
  let total_text := ((pages.take sample_pages).map fun t =>
    match t with
    | some txt => if !txt.isEmpty then (pyStrip txt).length else 0
    | none => 0).sum
  if sample_pages > 0 then (total_text : ℚ) / (sample_pages : ℚ) else 0

/-- `DocumentProcessor._detect_document_type`; the argument is `none` when
opening the text layer raises. -/
def detect_document_type (doc : Option (List (Option (List Char)))) : List Char :=
  match doc with
  | none => "mixed".data
  | some pages =>
    let avg := avgTextPerPage pages
    if avg > 500 then "text_based".data
    else if avg < 100 then "scanned_image".data
    else "mixed".data

/-! ## `TangerineProcessor` (multi-line savings-account format) -/

/-- Python truthiness of an optional string (None and `""` are falsy). -/
def optFalsy (o : Option (List Char)) : Bool :=
  match o with
  | none => true
  | some s => s.isEmpty

/-- `TangerineProcessor._is_tangerine_transaction`
(`^\d{2}\s[A-Za-z]{3}\s\d{4}`). -/
def isTangerineTransaction : List Char → Bool
  | d1 :: d2 :: s1 :: a :: b :: c :: s2 :: y1 :: y2 :: y3 :: y4 :: _ =>
    d1.isDigit && d2.isDigit && pyIsSpace s1 && a.isAlpha && b.isAlpha &&
      c.isAlpha && pyIsSpace s2 && y1.isDigit && y2.isDigit && y3.isDigit && y4.isDigit
  | _ => false

/-- `TangerineProcessor._parse_tangerine_date` (`'01 Oct 2021'` to MM-DD,
`"Unknown"` when the month token is not an abbreviation). -/
def parse_tangerine_date (date_str : List Char) : List Char :=
  match pySplit date_str with
  | p0 :: p1 :: _ :: _ =>
    match monthMapLookup (pyLower p1) with
    | some mn => mn ++ '-' :: zfill2 p0
    | none => "Unknown".data
  | _ => "Unknown".data

/-- Scanner of `findAmounts`; the fuel only bounds the number of scan
steps, each of which consumes at least one character. -/
def findAmountsGo : Nat → List Char → List (List Char)
  | 0, _ => []
  | _, [] => []
  | f + 1, c :: cs =>
    let run := (c :: cs).takeWhile fun x => x.isDigit || x = ','
    match (c :: cs).drop run.length with
    | '.' :: d1 :: d2 :: rest2 =>
      if !run.isEmpty && d1.isDigit && d2.isDigit then
        (run ++ ['.', d1, d2]) :: findAmountsGo f rest2
      else findAmountsGo f cs
    | _ => findAmountsGo f cs

/-- `re.findall(r'[\d,]+\.\d{2}', s)`: leftmost non-overlapping matches,
each a maximal digit/comma run followed by a dot and two digits. -/
def findAmounts (s : List Char) : List (List Char) :=
  findAmountsGo s.length s

/-- The keyword classification shared verbatim by the two Tangerine record
builders: credit keywords, then debit keywords, then the sign default. -/
def tangerineClassify (description : List Char) (amount : ℚ) : List Char × Bool :=
  if ["interest paid", "deposit", "transfer in", "e-transfer from",
      "interac e-transfer from"].any (fun k => strIn k.data (pyLower description)) then
    ("credit".data, false)
  else if ["withdrawal", "transfer to", "internet withdrawal", "fee",
           "charge"].any (fun k => strIn k.data (pyLower description)) then
    ("debit".data, true)
  else if amount > 0 then ("credit".data, false)
  else ("debit".data, true)

/-- `TangerineProcessor._parse_tangerine_transaction` (single complete
line: date, description tokens, amount, balance). -/
def parse_tangerine_transaction (line : List Char) (page_num : Nat) : Option Tx :=
  match pySplit line with
  | p0 :: p1 :: p2 :: rest =>
    if rest.isEmpty then none
    else
      let date := parse_tangerine_date (p0 ++ ' ' :: p1 ++ ' ' :: p2)
      let amounts := rest.filter amtGroupFull
      match amounts with
      | a0 :: a1 :: _ =>
        let description := joinSpace (rest.filter fun p => !amtGroupFull p)
        let amount := clean_amount a0
        let balance := clean_amount a1
        if (["opening balance", "closing balance"].any fun k =>
              strIn k.data (pyLower description)) && decide (amount = 0) then
          none
        else
          let cls := tangerineClassify description amount
          some { date := date, description := description, amount := amount,
                 balance := some balance, page := page_num,
                 bank := "Tangerine".data, confidence := 0.85,
                 transaction_type := some cls.1, is_spending := some cls.2,
                 abs_amount := some |amount|,
                 processing_method := some "tangerine_processor".data,
                 confidence_level := some "medium".data }
      | _ => none
  | _ => none

/-- `TangerineProcessor._is_complete_tangerine_transaction`. -/
def isCompleteTangerineTransaction (line : List Char) : Bool :=
  let parts := pySplit line
  if parts.length < 6 then false
  else if !isTangerineTransaction line then false
  else (parts.filter amtGroupFull).length ≥ 2

/-- Mutable state of the look-ahead loop in
`_parse_tangerine_multiline_transaction`. -/
structure TangerineScan where
  description : Option (List Char)
  amount : Option ℚ
  balance : Option ℚ
  lines_consumed : Nat
  deriving Repr

/-- The `while idx < len(lines) and lines_consumed < 5` look-ahead loop. -/
def tangerineLookahead (lines : List (List Char)) : Nat → TangerineScan → TangerineScan
  | idx, st =>
    if idx < lines.length ∧ st.lines_consumed < 5 then
      let next_line := pyStrip (lines.getD idx [])
      if next_line.isEmpty then
        tangerineLookahead lines (idx + 1) { st with lines_consumed := st.lines_consumed + 1 }
      else if isTangerineTransaction next_line then st
      else
        let amounts_in_line := findAmounts next_line
        if amounts_in_line.length ≥ 2 ∧ st.amount.isNone then
          match amounts_in_line with
          | a0 :: a1 :: _ =>
            { st with amount := some (clean_amount a0),
                      balance := some (clean_amount a1),
                      lines_consumed := st.lines_consumed + 1 }
          | _ => st
        else
          let st1 :=
            if optFalsy st.description && !(next_line.any Char.isDigit) then
              { st with description := some next_line }
            else st
          tangerineLookahead lines (idx + 1) { st1 with lines_consumed := st1.lines_consumed + 1 }
    else st
termination_by idx _ => lines.length - idx

/-- `TangerineProcessor._parse_tangerine_multiline_transaction`. -/
def parse_tangerine_multiline (lines : List (List Char)) (start_idx : Nat)
    (page_num : Nat) : Option Tx × Nat :=
  let current_line := pyStrip (lines.getD start_idx [])
  if isCompleteTangerineTransaction current_line then
    (parse_tangerine_transaction current_line page_num, 1)
  else
    let firstLine : Option (List Char) × Option (List Char) × Option ℚ × Option ℚ :=
      if isTangerineTransaction current_line then
        match pySplit current_line with
        | p0 :: p1 :: p2 :: rest =>
          let ds := some (p0 ++ ' ' :: p1 ++ ' ' :: p2)
          if !rest.isEmpty then
            match rest.filter amtGroupFull with
            | a0 :: a1 :: _ =>
              (ds, some (joinSpace (rest.filter fun p => !amtGroupFull p)),
               some (clean_amount a0), some (clean_amount a1))
            | _ => (ds, some (joinSpace rest), none, none)
          else (ds, none, none, none)
        | _ => (none, none, none, none)
      else (none, none, none, none)
    let st0 : TangerineScan := ⟨firstLine.2.1, firstLine.2.2.1, firstLine.2.2.2, 1⟩
    let st := tangerineLookahead lines (start_idx + 1) st0
    let desc2 :=
      if optFalsy st.description && start_idx > 0 then
        let prev := pyStrip (lines.getD (start_idx - 1) [])
        if !prev.isEmpty && !isTangerineTransaction prev then some prev
        else st.description
      else st.description
    if !optFalsy firstLine.1 && !optFalsy desc2 && st.amount.isSome && st.balance.isSome then
      match firstLine.1, desc2, st.amount, st.balance with
      | some date_str, some description, some amount, some balance =>
        let date := parse_tangerine_date date_str
        if (["opening balance", "closing balance"].any fun k =>
              strIn k.data (pyLower description)) && decide (amount = 0) then
          (none, st.lines_consumed)
        else
          let cls := tangerineClassify description amount
          (some { date := date, description := description, amount := amount,
                  balance := some balance, page := page_num,
                  bank := "Tangerine".data, confidence := 0.85,
                  transaction_type := some cls.1,
                  is_spending := some cls.2,
                  abs_amount := some |amount|,
                  processing_method := some "tangerine_processor".data,
                  confidence_level := some "medium".data }, st.lines_consumed)
      | _, _, _, _ => (none, 1)
    else (none, 1)

/-- One page of `TangerineProcessor.extract_transactions`
(`in_transaction_section` header tracking plus the multi-line parser);
`fuel` bounds the `while i < len(lines)` loop, whose index strictly
increases by `lines_consumed ≥ 1`. -/
def tangerinePageLoop (lines : List (List Char)) (page_num : Nat) :
    Nat → Nat → Bool → List Tx
  | 0, _, _ => []
  | f + 1, i, in_section =>
    if i < lines.length then
      let line := pyStrip (lines.getD i [])
      if (strIn "Transaction Date".data line && strIn "Transaction Description".data line) ||
          (strIn "Transaction Date".data line && strIn "Amount".data line) then
        tangerinePageLoop lines page_num f (i + 1) true
      else if strIn "Current Interest Rate".data line || strIn "The Details -".data line then
        tangerinePageLoop lines page_num f (i + 1) false
      else if in_section && isTangerineTransaction line then
        let step := parse_tangerine_multiline lines i page_num
        let consumed := max step.2 1
        let rest := tangerinePageLoop lines page_num f (i + consumed) in_section
        match step.1 with
        | some tx => tx :: rest
        | none => rest
      else tangerinePageLoop lines page_num f (i + 1) in_section
    else []

/-- `TangerineProcessor.extract_transactions` restricted to one page. -/
def tangerine_extract_page (lines : List (List Char)) (page_num : Nat) : List Tx :=
  tangerinePageLoop lines page_num lines.length 0 false

/-! ## `RBCBankProcessor` (carry-forward date format) -/

/-- Match of `(\d{1,2})\s+([a-zA-Z]{3})` anchored at the head: greedy one or
two digits, one or more whitespace, exactly three letters.  Returns
(whole match, digit group, letter group). -/
def rbcDateTryDigits (ds rest : List Char) : Option (List Char × List Char × List Char) :=
  let w := rest.takeWhile pyIsSpace
  if w.isEmpty then none
  else
    match rest.drop w.length with
    | a :: b :: c :: _ =>
      if a.isAlpha && b.isAlpha && c.isAlpha then
        some (ds ++ w ++ [a, b, c], ds, [a, b, c])
      else none
    | _ => none

def rbcDateMatchAt : List Char → Option (List Char × List Char × List Char)
  | d1 :: d2 :: rest =>
    if d1.isDigit then
      if d2.isDigit then
        match rbcDateTryDigits [d1, d2] rest with
        | some r => some r
        | none => rbcDateTryDigits [d1] (d2 :: rest)
      else rbcDateTryDigits [d1] (d2 :: rest)
    else none
  | _ => none

/-- `re.search(r'(\d{1,2}\s+([A-Za-z]{3}))', line)`: leftmost match. -/
def rbcDateSearch : List Char → Option (List Char × List Char × List Char)
  | [] => none
  | c :: cs =>
    match rbcDateMatchAt (c :: cs) with
    | some r => some r
    | none => rbcDateSearch cs

/-- `RBCBankProcessor._parse_rbc_date` (`'3 Mar'` to MM-DD, else
`"Unknown"`). -/
def parse_rbc_date (date_str : List Char) : List Char :=
  match rbcDateMatchAt (pyLower date_str) with
  | some (_, dayDigits, monthChars) =>
    match monthMapLookup monthChars with
    | some mm => mm ++ '-' :: zfill2 dayDigits
    | none => "Unknown".data
  | none => "Unknown".data

/-- Scanner of `pyReplace`; the fuel bounds scan steps, each of which
consumes at least one character. -/
def pyReplaceGo (old new : List Char) : Nat → List Char → List Char
  | 0, s => s
  | _, [] => []
  | f + 1, c :: cs =>
    if old.isPrefixOf (c :: cs) && !old.isEmpty then
      new ++ pyReplaceGo old new f (cs.drop (old.length - 1))
    else c :: pyReplaceGo old new f cs

/-- Python `s.replace(old, new)` for nonempty `old`: all non-overlapping
occurrences, left to right. -/
def pyReplace (old new s : List Char) : List Char :=
  pyReplaceGo old new s.length s

/-- `\w` (ASCII): letters, digits, underscore. -/
def isWordChar (c : Char) : Bool :=
  c.isAlpha || c.isDigit || c = '_'

/-- `re.sub(r'^\W+|\W+$', '', s)`: trim non-word characters at both ends. -/
def trimNonWord (s : List Char) : List Char :=
  ((s.dropWhile fun c => !isWordChar c).reverse.dropWhile fun c => !isWordChar c).reverse

/-- Python `s.find(sub)` as an index (`none` for -1). -/
def pyFind (s sub : List Char) : Option Nat :=
  (List.range (s.length + 1)).find? fun i => sub.isPrefixOf (s.drop i)

def rbc_skip_patterns : List String :=
  ["date", "description", "withdrawals", "deposits", "balance",
   "details of your account", "continued", "opening balance", "closing balance",
   "total deposits", "total withdrawals", "summary", "from.*to.*", "rbc",
   "fee electronic", "multiproduct rebate", "monthly fee"]

/-- `RBCBankProcessor._parse_rbc_transaction_line`. -/
def parse_rbc_transaction_line (date line : List Char) (page_num : Nat) : Option Tx :=
  if line.isEmpty || (pyStrip line).length < 5 then none
  else
    let line_lower := pyLower line
    if rbc_skip_patterns.any (fun p => strIn p.data line_lower) then none
    else
      match findAmounts line with
      | [] => none
      | a0 :: _ =>
        let amount := clean_amount a0
        if amount ≤ 0 then none
        else
          let desc_end := (pyFind line a0).getD 0
          let description := joinSpace (pySplit (trimNonWord (pyStrip (line.take desc_end))))
          if description.length < 3 then none
          else
            let cls :=
              if ["e-transfer", "autodeposit", "deposit", "rebate", "refund"].any
                  (fun p => strIn p.data line_lower) then ("credit".data, false)
              else if ["interac purchase", "contactless interac purchase",
                       "online banking payment", "loan payment", "atm withdrawal",
                       "fee", "charge", "misc payment"].any
                  (fun p => strIn p.data line_lower) then ("debit".data, true)
              else if ["subway", "tim hortons", "wal-mart", "esso", "phoenix",
                       "costco", "staples", "nike", "shoppers", "fortinos",
                       "afrocan"].any (fun p => strIn p.data line_lower) then
                ("debit".data, true)
              else ("debit".data, true)
            if date.isEmpty || date = "Unknown".data then none
            else
              some { date := date, description := description, amount := amount,
                     page := page_num, bank := "RBC Bank".data, confidence := 0.85,
                     transaction_type := some cls.1, is_spending := some cls.2,
                     abs_amount := some |amount|,
                     processing_method := some "rbc_bank_processor".data,
                     confidence_level := some "medium".data }

/-- The month-name whitelist in `RBCBankProcessor.extract_transactions`. -/
def valid_months : List (List Char) :=
  ["jan", "feb", "mar", "apr", "may", "jun",
   "jul", "aug", "sep", "oct", "nov", "dec"].map String.data

def rbc_header_keywords : List String :=
  ["date", "description", "withdrawals", "deposits", "balance"]

/-- The date-acceptance test inside the RBC line loop: the leftmost
day-month match, accepted only when its alphabetic part is a real month
abbreviation; returns the matched group. -/
def rbcFoundDate (line : List Char) : Option (List Char) :=
  match rbcDateSearch line with
  | some (g1, _, g2) =>
    if valid_months.contains (pyLower g2) then some g1 else none
  | none => none

/-- One iteration of the RBC line loop: returns the emitted records and the
updated `current_date` carry-forward state. -/
def rbcStep (page_num : Nat) (current_date : Option (List Char)) (l : List Char) :
    List Tx × Option (List Char) :=
  let line := pyStrip l
  if line.isEmpty then ([], current_date)
  else if rbc_header_keywords.any (fun k => strIn k.data (pyLower line)) then
    ([], current_date)
  else
    match rbcFoundDate line with
    | some g1 =>
      let d := parse_rbc_date g1
      let clean_line := pyStrip (pyReplace g1 [] line)
      if !clean_line.isEmpty then
        match parse_rbc_transaction_line d clean_line page_num with
        | some tx => ([tx], some d)
        | none => ([], some d)
      else ([], some d)
    | none =>
      match current_date with
      | some d =>
        match parse_rbc_transaction_line d line page_num with
        | some tx => ([tx], current_date)
        | none => ([], current_date)
      | none => ([], current_date)

/-- The per-page line loop of `RBCBankProcessor.extract_transactions`
(entered only when the page contains "Details of your account activity"). -/
def rbcLinesLoop (page_num : Nat) : List (List Char) → Option (List Char) → List Tx
  | [], _ => []
  | l :: ls, current_date =>
    let step := rbcStep page_num current_date l
    step.1 ++ rbcLinesLoop page_num ls step.2

/-! ## `OCRExtractor` and `DocumentProcessor._process_scanned_pdf`

The page image and OCR bounding box are abstract types; an OCR reader maps
an image to (bounding box, text, confidence) tuples as `easyocr.readtext`
does.  `none` for the reader or for the poppler path models the optional
dependency being unavailable. -/

/-- An OCR transaction dict (`_parse_ocr_text`). -/
structure OcrTx where
  date : List Char
  description : List Char
  amount : ℚ
  page : Nat
  confidence : ℚ
  extraction_method : List Char
  deriving Repr

/-- Take exactly `n` digits. -/
def digitsTake (n : Nat) (cs : List Char) : Option (List Char × List Char) :=
  let pre := cs.take n
  if pre.length = n && pre.all Char.isDigit then some (pre, cs.drop n) else none

/-- Candidates for `\d{1,2}` (greedy). -/
def digits12 (cs : List Char) : List (List Char × List Char) :=
  (digitsTake 2 cs).toList ++ (digitsTake 1 cs).toList

/-- Candidates for `\d{2,4}` (greedy). -/
def digits24 (cs : List Char) : List (List Char × List Char) :=
  (digitsTake 4 cs).toList ++ (digitsTake 3 cs).toList ++ (digitsTake 2 cs).toList

/-- Candidates for `\d{1,3}` (greedy). -/
def digits123 (cs : List Char) : List (List Char × List Char) :=
  (digitsTake 3 cs).toList ++ (digitsTake 2 cs).toList ++ (digitsTake 1 cs).toList

/-- The separator class: a slash or a dash. -/
def sepAt : List Char → Option (Char × List Char)
  | c :: r => if c = '/' || c = '-' then some (c, r) else none
  | [] => none

/-- Match the first OCR date pattern (one or two digits, slash-or-dash
separator, one or two digits, separator, two to four digits) at the head;
returns the matched text. -/
def ocrDate1At (cs : List Char) : Option (List Char) :=
  (digits12 cs).findSome? fun p1 =>
  (sepAt p1.2).bind fun s1 =>
  (digits12 s1.2).findSome? fun p2 =>
  (sepAt p2.2).bind fun s2 =>
  (digits24 s2.2).findSome? fun p3 =>
  some (p1.1 ++ s1.1 :: p2.1 ++ s2.1 :: p3.1)

/-- Match the second OCR date pattern (four digits, slash-or-dash
separator, one or two digits, separator, one or two digits) at the head. -/
def ocrDate2At (cs : List Char) : Option (List Char) :=
  (digitsTake 4 cs).bind fun p1 =>
  (sepAt p1.2).bind fun s1 =>
  (digits12 s1.2).findSome? fun p2 =>
  (sepAt p2.2).bind fun s2 =>
  (digits12 s2.2).findSome? fun p3 =>
  some (p1.1 ++ s1.1 :: p2.1 ++ s2.1 :: p3.1)

/-- Match `(Jan|...|Dec)\s+\d{1,2}` (IGNORECASE) at the head. -/
def ocrDate3At (cs : List Char) : Option (List Char) :=
  match cs with
  | a :: b :: c :: rest =>
    if (monthAbbrevNum (pyLower [a, b, c])).isSome then
      let w := rest.takeWhile pyIsSpace
      if w.isEmpty then none
      else (digits12 (rest.drop w.length)).findSome? fun p =>
        some ([a, b, c] ++ w ++ p.1)
    else none
  | _ => none

/-- Candidates for `(?:,\d{3})*` (greedy, most repetitions first). -/
def commaGroups : Nat → List Char → List (List Char × List Char)
  | 0, cs => [([], cs)]
  | f + 1, cs =>
    match cs with
    | ',' :: a :: b :: c :: r =>
      if a.isDigit && b.isDigit && c.isDigit then
        ((commaGroups f r).map fun p => (',' :: a :: b :: c :: p.1, p.2)) ++ [([], cs)]
      else [([], cs)]
    | _ => [([], cs)]

/-- Match `\$\d{1,3}(?:,\d{3})*\.\d{2}` at the head. -/
def ocrAmt1At (cs : List Char) : Option (List Char) :=
  match cs with
  | '$' :: r1 =>
    (digits123 r1).findSome? fun p1 =>
    (commaGroups p1.2.length p1.2).findSome? fun p2 =>
    match p2.2 with
    | '.' :: a :: b :: _ =>
      if a.isDigit && b.isDigit then some ('$' :: p1.1 ++ p2.1 ++ ['.', a, b])
      else none
    | _ => none
  | _ => none

/-- Match `\$\d+\.\d{2}` at the head. -/
def ocrAmt2At (cs : List Char) : Option (List Char) :=
  match cs with
  | '$' :: r1 =>
    let run := r1.takeWhile Char.isDigit
    if run.isEmpty then none
    else
      match r1.drop run.length with
      | '.' :: a :: b :: _ =>
        if a.isDigit && b.isDigit then some ('$' :: run ++ ['.', a, b]) else none
      | _ => none
  | _ => none

/-- Match `\(\$\d+\.\d{2}\)` at the head. -/
def ocrAmt3At (cs : List Char) : Option (List Char) :=
  match cs with
  | '(' :: '$' :: r1 =>
    let run := r1.takeWhile Char.isDigit
    if run.isEmpty then none
    else
      match r1.drop run.length with
      | '.' :: a :: b :: ')' :: _ =>
        if a.isDigit && b.isDigit then some ('(' :: '$' :: run ++ ['.', a, b, ')'])
        else none
      | _ => none
  | _ => none

/-- `re.search`: leftmost match of a head-matcher. -/
def searchPat (matchAt : List Char → Option (List Char)) : List Char → Option (List Char)
  | [] => none
  | c :: cs =>
    match matchAt (c :: cs) with
    | some m => some m
    | none => searchPat matchAt cs

/-- Scanner of `subAllPat` (fuel bounds scan steps). -/
def subAllPatGo (matchAt : List Char → Option (List Char)) : Nat → List Char → List Char
  | 0, s => s
  | _, [] => []
  | f + 1, c :: cs =>
    match matchAt (c :: cs) with
    | some m =>
      if m.isEmpty then c :: subAllPatGo matchAt f cs
      else subAllPatGo matchAt f (cs.drop (m.length - 1))
    | none => c :: subAllPatGo matchAt f cs

/-- `re.sub(pattern, '', s)`: delete every non-overlapping match. -/
def subAllPat (matchAt : List Char → Option (List Char)) (s : List Char) : List Char :=
  subAllPatGo matchAt s.length s

def ocrDatePats : List (List Char → Option (List Char)) :=
  [ocrDate1At, ocrDate2At, ocrDate3At]

def ocrAmtPats : List (List Char → Option (List Char)) :=
  [ocrAmt1At, ocrAmt2At, ocrAmt3At]

/-- `OCRExtractor._extract_date`. -/
def ocr_extract_date (text : List Char) : Option (List Char) :=
  ocrDatePats.findSome? fun p => searchPat p text

/-- `OCRExtractor._extract_amount`. -/
def ocr_extract_amount (text : List Char) : Option ℚ :=
  ocrAmtPats.findSome? fun p =>
    (searchPat p text).bind fun m =>
      let cleanedStr := m.filter fun c => !(c = '$' || c = ',' || c = '(' || c = ')')
      (parsePyFloat cleanedStr).map fun v => if m.contains '(' then -v else v

/-- `OCRExtractor._is_transaction_text`. -/
def is_transaction_text (text : List Char) : Bool :=
  (ocrDatePats.any fun p => (searchPat p text).isSome) ||
  (ocrAmtPats.any fun p => (searchPat p text).isSome)

/-- `OCRExtractor._extract_description`. -/
def ocr_extract_description (text date : List Char) : List Char :=
  let d1 := if !date.isEmpty && date ≠ "Unknown".data then pyReplace date [] text else text
  let d2 := subAllPat ocrAmt3At (subAllPat ocrAmt2At (subAllPat ocrAmt1At d1))
  let d3 := pyStrip (joinSpace (pySplit d2))
  if d3.length < 5 then "OCR Transaction".data else d3

/-- `OCRExtractor._parse_ocr_text`. -/
def parse_ocr_text (text : List Char) (page_num : Nat) (ocr_confidence : ℚ) :
    Option OcrTx :=
  let date := ocr_extract_date text
  let amount := ocr_extract_amount text
  if date.isNone && amount.isNone then none
  else
    let date1 := date.getD "Unknown".data
    let amount1 := amount.getD 0
    some { date := date1
           description := ocr_extract_description text date1
           amount := amount1
           page := page_num
           confidence := ocr_confidence * 0.8
           extraction_method := "ocr".data }

/-- `OCRExtractor.extract_transactions_from_image`: nothing without a
reader; otherwise filter tokens by confidence > 0.7 and length > 3, keep
transaction-looking ones. -/
def extract_transactions_from_image {Image BBox : Type}
    (ocr_reader : Option (Image → List (BBox × List Char × ℚ)))
    (image : Image) (page_num : Nat) : List OcrTx :=
  match ocr_reader with
  | none => []
  | some readtext =>
    (readtext image).filterMap fun r =>
      if r.2.2 > 0.7 ∧ (pyStrip r.2.1).length > 3 then
        if is_transaction_text r.2.1 then parse_ocr_text r.2.1 page_num r.2.2
        else none
      else none

/-- `OCRExtractor.extract_transactions`: an empty result when poppler is
unavailable, else every page image through OCR (pages numbered from 1). -/
def ocr_extract_transactions {Image BBox : Type} (poppler_path : Option (List Char))
    (ocr_reader : Option (Image → List (BBox × List Char × ℚ)))
    (pages : List Image) : List OcrTx :=
  match poppler_path with
  | none => []
  | some _ =>
    ((List.range pages.length).zip pages).flatMap fun p =>
      extract_transactions_from_image ocr_reader p.2 (p.1 + 1)

/-- The result dict of `DocumentProcessor._process_scanned_pdf` /
`_process_text_based_pdf` / `_process_mixed_pdf`; `error := none` models
the absence of an `'error'` key. -/
structure PageDocResult where
  processing_method : List Char
  transactions : List OcrTx
  confidence : List Char
  processing_time : List Char
  error : Option (List Char) := none
  deriving Repr

/-- `DocumentProcessor._process_scanned_pdf`. -/
def process_scanned_pdf {Image BBox : Type} (poppler_path : Option (List Char))
    (ocr_reader : Option (Image → List (BBox × List Char × ℚ)))
    (pages : List Image) : PageDocResult :=
  { processing_method := "ocr_extraction".data
    transactions := ocr_extract_transactions poppler_path ocr_reader pages
    confidence := "medium".data
    processing_time := "slow".data
    error := none }

/-! ## `TextBasedExtractor` skip rules (`text_extractor.py`) -/

/-- `TextBasedExtractor.exclusion_keywords`. -/
def exclusion_keywords : List String :=
  ["opening balance", "closing balance", "total", "subtotal",
   "previous statement", "terms and conditions", "privacy policy",
   "prior to april", "member of", "deposit insurance"]

/-- `TextBasedExtractor._is_summary_line`. -/
def is_summary_line (line : List Char) : Bool :=
  ["total", "subtotal", "balance", "opening", "closing", "previous",
   "carried forward"].any fun k => strIn k.data (pyLower line)

/-- The exclusion-keyword skip at the head of
`TextBasedExtractor._extract_transaction_patterns`. -/
def exclusion_skip (line : List Char) : Bool :=
  exclusion_keywords.any fun k => strIn k.data (pyLower line)

/-! ## Theorems for the claims -/

/-- C2: the amount normalizer maps "$1,234.56" to 1234.56, "($45.00)" to
-45.00 (parenthetical notation is negative), "-$3.20" to -3.20, and
"12.00" to 12.00. -/
theorem C2_clean_amount_examples :
    clean_amount "$1,234.56".data = 1234.56 ∧
    clean_amount "($45.00)".data = -45.00 ∧
    clean_amount "-$3.20".data = -3.20 ∧
    clean_amount "12.00".data = 12.00 := by
  refine ⟨?_, ?_, ?_, ?_⟩ <;>
  · simp +decide [clean_amount, parsePyFloat, parseUnsignedFloat, digitsVal,
      digitVal, pyStartsWith]
    try norm_num

/-- C1: a record whose extractor set no classification gets the sign-based
default in `process_document`: at a credit-card bank positive amounts are
debit/spending and negative amounts credit/non-spending; at a deposit bank
negative amounts are debit/spending and positive amounts
credit/non-spending; the classified record is in the returned list. -/
theorem C1_sign_default (bank : List Char) (txs : List Tx) (tx : Tx)
    (hmem : tx ∈ txs)
    (hunset : tx.transaction_type = none ∨ tx.is_spending = none) :
    classifyTx tx ∈ (process_document_success bank txs).transactions ∧
    (is_credit_card_bank tx.bank = true →
      (0 < tx.amount →
        (classifyTx tx).transaction_type = some "debit".data ∧
        (classifyTx tx).is_spending = some true) ∧
      (tx.amount < 0 →
        (classifyTx tx).transaction_type = some "credit".data ∧
        (classifyTx tx).is_spending = some false)) ∧
    (is_credit_card_bank tx.bank = false →
      (tx.amount < 0 →
        (classifyTx tx).transaction_type = some "debit".data ∧
        (classifyTx tx).is_spending = some true) ∧
      (0 < tx.amount →
        (classifyTx tx).transaction_type = some "credit".data ∧
        (classifyTx tx).is_spending = some false)) := by
  have hun : (tx.transaction_type.isNone || tx.is_spending.isNone) = true := by
    rcases hunset with h | h <;> simp [h]
  refine ⟨List.mem_map_of_mem _ hmem, ?_, ?_⟩
  · intro hcc
    constructor
    · intro hpos
      have hnn : ¬ tx.amount < 0 := not_lt_of_gt hpos
      simp [classifyTx, hun, hcc, hpos, hnn]
    · intro hneg
      have hnp : ¬ 0 < tx.amount := not_lt_of_gt hneg
      simp [classifyTx, hun, hcc, hneg, hnp]
  · intro hcc
    constructor
    · intro hneg
      have hnp : ¬ 0 < tx.amount := not_lt_of_gt hneg
      simp [classifyTx, hun, hcc, hneg, hnp]
    · intro hpos
      have hnn : ¬ tx.amount < 0 := not_lt_of_gt hpos
      simp [classifyTx, hun, hcc, hpos, hnn]

/-- Concrete unclassified credit-card record for the C1 witness. -/
def c1tx : Tx :=
  { date := "01-01".data, description := "PURCHASE".data, amount := 50,
    page := 1, bank := "BMO".data, confidence := 0.95 }

theorem C1_sign_default_witness :
    classifyTx c1tx ∈ (process_document_success "BMO".data [c1tx]).transactions ∧
    (classifyTx c1tx).transaction_type = some "debit".data ∧
    (classifyTx c1tx).is_spending = some true := by
  have h := C1_sign_default "BMO".data [c1tx] c1tx (by simp) (Or.inl rfl)
  exact ⟨h.1, (h.2.1 (by decide)).1 (by norm_num [c1tx])⟩

/-- C3: TD lines parsed in the "Debits" section are debit/spending and in
the "Credits" section credit/non-spending, whatever the line's words or
amount; and since the TD parser always sets both classification fields,
the `process_document` normalization pass never overrides them. -/
theorem C3_td_section_classification :
    (∀ (line : List Char) (page : Nat) (tx : Tx),
        parse_td_transaction line page "debits".data = some tx →
        tx.transaction_type = some "debit".data ∧ tx.is_spending = some true) ∧
    (∀ (line : List Char) (page : Nat) (tx : Tx),
        parse_td_transaction line page "credits".data = some tx →
        tx.transaction_type = some "credit".data ∧ tx.is_spending = some false) ∧
    (∀ (line : List Char) (page : Nat) (sect : List Char) (tx : Tx),
        parse_td_transaction line page sect = some tx →
        (classifyTx tx).transaction_type = tx.transaction_type ∧
        (classifyTx tx).is_spending = tx.is_spending) := by
  refine ⟨?_, ?_, ?_⟩
  · intro line page tx h
    rcases line with _ | ⟨c1, _ | ⟨c2, _ | ⟨c3, _ | ⟨c4, _ | ⟨c5, rest⟩⟩⟩⟩⟩
    all_goals simp only [parse_td_transaction] at h
    any_goals exact Option.noConfusion h
    split at h
    · split at h
      · injection h with h'
        subst h'
        simp +decide
      · exact Option.noConfusion h
    · exact Option.noConfusion h
  · intro line page tx h
    rcases line with _ | ⟨c1, _ | ⟨c2, _ | ⟨c3, _ | ⟨c4, _ | ⟨c5, rest⟩⟩⟩⟩⟩
    all_goals simp only [parse_td_transaction] at h
    any_goals exact Option.noConfusion h
    split at h
    · split at h
      · injection h with h'
        subst h'
        simp +decide
      · exact Option.noConfusion h
    · exact Option.noConfusion h
  · intro line page sect tx h
    rcases line with _ | ⟨c1, _ | ⟨c2, _ | ⟨c3, _ | ⟨c4, _ | ⟨c5, rest⟩⟩⟩⟩⟩
    all_goals simp only [parse_td_transaction] at h
    any_goals exact Option.noConfusion h
    split at h
    · split at h
      · injection h with h'
        subst h'
        simp [classifyTx]
      · exact Option.noConfusion h
    · exact Option.noConfusion h

theorem C3_td_section_classification_witness :
    ∃ tx : Tx,
      parse_td_transaction "07/02 SEND E-TFR 3,750.00".data 1 "debits".data = some tx ∧
      tx.transaction_type = some "debit".data ∧ tx.is_spending = some true := by
  have hs : (parse_td_transaction "07/02 SEND E-TFR 3,750.00".data 1
      "debits".data).isSome = true := by decide
  obtain ⟨tx, hp⟩ := Option.isSome_iff_exists.mp hs
  exact ⟨tx, hp, C3_td_section_classification.1 _ 1 tx hp⟩

/-- C4 (code evidence): a scanned-classified document processed with no
poppler rasterizer — or no OCR reader — comes back with
processing_method 'ocr_extraction', confidence 'medium', an empty
transaction list and NO error marker: exactly the silent empty success the
specification rules out. -/
theorem C4_scanned_no_ocr_silent_empty {Image BBox : Type}
    (ocr_reader : Option (Image → List (BBox × List Char × ℚ)))
    (poppler_path : Option (List Char)) (pages : List Image) :
    ((process_scanned_pdf none ocr_reader pages).transactions = [] ∧
      (process_scanned_pdf none ocr_reader pages).error = none ∧
      (process_scanned_pdf none ocr_reader pages).processing_method =
        "ocr_extraction".data ∧
      (process_scanned_pdf none ocr_reader pages).confidence = "medium".data) ∧
    ((process_scanned_pdf poppler_path
        (none : Option (Image → List (BBox × List Char × ℚ))) pages).transactions = [] ∧
      (process_scanned_pdf poppler_path
        (none : Option (Image → List (BBox × List Char × ℚ))) pages).error = none) := by
  refine ⟨⟨rfl, rfl, rfl, rfl⟩, ?_, rfl⟩
  cases poppler_path with
  | none => rfl
  | some p =>
    simp [process_scanned_pdf, ocr_extract_transactions, extract_transactions_from_image]

/-- Substring membership is monotone: an occurrence of `x ++ y` contains an
occurrence of `x`. -/
theorem strIn_of_strIn_append {x y s : List Char}
    (h : strIn (x ++ y) s = true) : strIn x s = true := by
  simp only [strIn, List.any_eq_true] at h ⊢
  obtain ⟨i, hi, hp⟩ := h
  exact ⟨i, hi, List.isPrefixOf_iff_prefix.mpr
    ((x.prefix_append y).trans (List.isPrefixOf_iff_prefix.mp hp))⟩

/-- C5 counterexample: in the Tangerine extractor a transaction-section
line containing "Opening Balance" together with amount tokens DOES yield a
record (with amount 100), because the skip rule additionally requires the
parsed amount to be 0. -/
theorem C5_counterexample :
    strIn "Opening Balance".data
      "01 Oct 2021 Opening Balance 100.00 664.54".data = true ∧
    ((tangerine_extract_page
        ["Transaction Date Transaction Description Amount".data,
         "01 Oct 2021 Opening Balance 100.00 664.54".data] 1).map
      fun tx => (tx.description, tx.amount)) =
      [("Opening Balance".data, 100)] := by
  constructor
  · decide
  · simp +decide [tangerine_extract_page, tangerinePageLoop, parse_tangerine_multiline,
      isCompleteTangerineTransaction, isTangerineTransaction, tangerineLookahead,
      parse_tangerine_transaction, parse_tangerine_date, tangerineClassify,
      pySplit, pySplitAux, amtGroupFull, joinSpace, clean_amount, parsePyFloat,
      parseUnsignedFloat, digitsVal, digitVal, pyStartsWith, pyIsSpace, pyLower,
      strIn, monthMapLookup, zfill2, pyStrip, optFalsy, findAmounts, findAmountsGo]

/-- C5 amended: the generic text extractor discards every line whose
lowercase form contains "opening balance" (summary-line check and
exclusion-keyword skip), but the Tangerine extractor skips an
opening-balance line only when its parsed amount is 0.00 — a record it
emits for such a line always carries a nonzero amount. -/
theorem C5_amended_opening_balance_skip :
    (∀ line : List Char, strIn "opening balance".data (pyLower line) = true →
        is_summary_line line = true ∧ exclusion_skip line = true) ∧
    (∀ (line : List Char) (page : Nat) (tx : Tx),
        parse_tangerine_transaction line page = some tx →
        strIn "opening balance".data (pyLower tx.description) = true →
        tx.amount ≠ 0) := by
  constructor
  · intro line hob
    have hop : strIn "opening".data (pyLower line) = true := by
      have : "opening balance".data = "opening".data ++ " balance".data := by decide
      exact strIn_of_strIn_append (this ▸ hob)
    constructor
    · simp only [is_summary_line, List.any_eq_true]
      exact ⟨"opening", by simp, hop⟩
    · simp only [exclusion_skip, exclusion_keywords, List.any_eq_true]
      exact ⟨"opening balance", by simp, hob⟩
  · intro line page tx h hob
    simp only [parse_tangerine_transaction] at h
    iterate 5 (all_goals try split at h)
    all_goals try exact Option.noConfusion h
    rename_i hskip
    injection h with h'
    subst h'
    intro hz
    apply hskip
    simp only at hob
    simp only at hz
    simp [hz, hob]

theorem C5_amended_opening_balance_skip_witness :
    is_summary_line "Opening Balance 664.54".data = true ∧
    exclusion_skip "Opening Balance 664.54".data = true :=
  C5_amended_opening_balance_skip.1 "Opening Balance 664.54".data (by decide)

/-- C6: on the two RBC lines "3 Mar  DEPOSIT  100.00" and
"  WITHDRAWAL  20.00" (the second without a date) both records carry date
03-03; and the carry-forward state changes only when the line has a
day-month match whose alphabetic part is a real month abbreviation, so
numeric-looking tokens never overwrite the carried date. -/
theorem C6_rbc_carry_forward :
    (((rbcLinesLoop 1 ["3 Mar  DEPOSIT  100.00".data, "  WITHDRAWAL  20.00".data]
        none).map fun tx => (tx.date, tx.description, tx.amount)) =
      [("03-03".data, "DEPOSIT".data, 100), ("03-03".data, "WITHDRAWAL".data, 20)]) ∧
    (∀ (page : Nat) (cd : Option (List Char)) (l : List Char),
      (rbcStep page cd l).2 ≠ cd →
      ∃ g1 dg g2, rbcDateSearch (pyStrip l) = some (g1, dg, g2) ∧
        valid_months.contains (pyLower g2) = true ∧
        (rbcStep page cd l).2 = some (parse_rbc_date g1)) := by
  constructor
  · simp +decide [rbcLinesLoop, rbcStep, rbcFoundDate, rbcDateSearch, rbcDateMatchAt,
      rbcDateTryDigits, parse_rbc_date, parse_rbc_transaction_line, pyReplace,
      trimNonWord, isWordChar, pyFind, rbc_skip_patterns, valid_months,
      rbc_header_keywords, findAmounts, findAmountsGo, clean_amount, parsePyFloat,
      parseUnsignedFloat, digitsVal, digitVal, pyStartsWith, pyIsSpace, pyLower,
      strIn, monthMapLookup, zfill2, pyStrip, pySplit, pySplitAux, joinSpace]
  · intro page cd l hne
    have key : ∀ g, rbcFoundDate (pyStrip l) = some g →
        ∃ dg g2, rbcDateSearch (pyStrip l) = some (g, dg, g2) ∧
          valid_months.contains (pyLower g2) = true := by
      intro g hg
      unfold rbcFoundDate at hg
      split at hg
      · split at hg
        · injection hg with h'
          subst h'
          rename_i heq hc
          exact ⟨_, _, heq, hc⟩
        · exact Option.noConfusion hg
      · exact Option.noConfusion hg
    simp only [rbcStep] at hne ⊢
    iterate 6 (all_goals try split at hne)
    all_goals try exact absurd rfl hne
    all_goals rename_i heq
    · obtain ⟨dg, g2, hsearch, hvm2⟩ := key _ (by assumption)
      refine ⟨_, dg, g2, hsearch, hvm2, ?_⟩
      simp_all [rbc_header_keywords]
    · obtain ⟨dg, g2, hsearch, hvm2⟩ := key _ (by assumption)
      refine ⟨_, dg, g2, hsearch, hvm2, ?_⟩
      simp_all [rbc_header_keywords]
    · obtain ⟨dg, g2, hsearch, hvm2⟩ := key _ (by assumption)
      refine ⟨_, dg, g2, hsearch, hvm2, ?_⟩
      simp_all [rbc_header_keywords]

theorem C6_rbc_carry_forward_witness :
    ∃ g1 dg g2, rbcDateSearch (pyStrip "4 Apr".data) = some (g1, dg, g2) ∧
      valid_months.contains (pyLower g2) = true ∧
      (rbcStep 1 none "4 Apr".data).2 = some (parse_rbc_date g1) :=
  C6_rbc_carry_forward.2 1 none "4 Apr".data (by decide)

/-- The return-on-first-match loop is first-match search. -/
theorem identify_bank_go_eq_find (text filename : List Char) :
    ∀ ps : List Processor,
      identify_bank_go text filename ps = ps.find? fun p => p.can_process text filename := by
  intro ps
  induction ps with
  | nil => rfl
  | cons p ps ih =>
    simp only [identify_bank_go, List.find?]
    by_cases h : p.can_process text filename = true
    · simp [h]
    · simp only [Bool.not_eq_true] at h
      simp [h, ih]

/-- C7: `identify_bank` returns the first registry processor whose
`can_process` predicate accepts the sampled text and filename, and `none`
when every predicate rejects; registry order alone decides ties. -/
theorem C7_identify_bank_first_match :
    (∀ text filename : List Char,
        identify_bank text filename =
          registry.find? fun p => p.can_process text filename) ∧
    (∀ text filename : List Char,
        (∀ p ∈ registry, p.can_process text filename = false) →
        identify_bank text filename = none) := by
  constructor
  · intro text filename
    exact identify_bank_go_eq_find text filename registry
  · intro text filename hall
    rw [identify_bank, identify_bank_go_eq_find]
    exact List.find?_eq_none.mpr fun p hp => by simp [hall p hp]

theorem C7_identify_bank_first_match_witness :
    identify_bank "no bank indicators here".data "statement.pdf".data = none :=
  C7_identify_bank_first_match.2 "no bank indicators here".data "statement.pdf".data
    (by decide)

/-- C8: over the average extractable characters of up to three sampled
pages, classification is text_based exactly when the average exceeds 500,
scanned_image exactly when it is below 100, mixed otherwise; an unopenable
text layer classifies as mixed. -/
theorem C8_detect_document_type :
    (∀ pages : List (Option (List Char)),
      (detect_document_type (some pages) = "text_based".data ↔
        500 < avgTextPerPage pages) ∧
      (detect_document_type (some pages) = "scanned_image".data ↔
        avgTextPerPage pages < 100) ∧
      (detect_document_type (some pages) = "mixed".data ↔
        (100 ≤ avgTextPerPage pages ∧ avgTextPerPage pages ≤ 500))) ∧
    detect_document_type none = "mixed".data := by
  constructor
  · intro pages
    simp only [detect_document_type]
    by_cases h1 : 500 < avgTextPerPage pages
    · refine ⟨?_, ?_, ?_⟩ <;> rw [if_pos h1]
      · exact iff_of_true rfl h1
      · exact iff_of_false (by decide) (by linarith)
      · exact iff_of_false (by decide) (by rintro ⟨-, hb⟩; linarith)
    · by_cases h2 : avgTextPerPage pages < 100
      · refine ⟨?_, ?_, ?_⟩ <;> rw [if_neg h1, if_pos h2]
        · exact iff_of_false (by decide) h1
        · exact iff_of_true rfl h2
        · exact iff_of_false (by decide) (by rintro ⟨ha, -⟩; linarith)
      · refine ⟨?_, ?_, ?_⟩ <;> rw [if_neg h1, if_neg h2]
        · exact iff_of_false (by decide) h1
        · exact iff_of_false (by decide) h2
        · exact iff_of_true rfl ⟨by linarith, by linarith⟩
  · rfl

/-- The canonical MM-DD outputs of `clean_date`'s successful paths: months
01–12 from the format table or the month map, two-digit days 00–99 (the
fallback zero-fills whatever one- or two-digit day it captured). -/
def canonicalMMDD : List (List Char) :=
  ((List.range 12).map fun m =>
    (List.range 100).map fun d =>
      pad2 (m + 1) ++ '-' :: zfill2 (Nat.toDigits 10 d)).flatten

set_option maxRecDepth 1000000 in
/-- Every canonical MM-DD string is a fixed point of `clean_date`. -/
theorem canonicalMMDD_fixed_all :
    (canonicalMMDD.all fun t => clean_date t == t) = true := by rfl

/-- C9 counterexample: `clean_date` is not idempotent — "09/28xyz"
normalizes to the 5-character truncation "09/28", which a second
application normalizes further to "09-28". -/
theorem C9_counterexample :
    clean_date (clean_date "09/28xyz".data) ≠ clean_date "09/28xyz".data := by decide

/-- C9 amended: date normalization is idempotent on every input whose
first normalization yields a canonical MM-DD string (the
date-format/month-map paths); only the 5-character truncation fallback can
break idempotence. -/
theorem C9_amended_idempotent_on_canonical (d : List Char)
    (h : clean_date d ∈ canonicalMMDD) :
    clean_date (clean_date d) = clean_date d := by
  have hall := List.all_eq_true.mp canonicalMMDD_fixed_all (clean_date d) h
  exact eq_of_beq hall

set_option maxRecDepth 1000000 in
theorem C9_amended_idempotent_on_canonical_witness :
    clean_date "Sep 28 2024".data ∈ canonicalMMDD ∧
    clean_date (clean_date "Sep 28 2024".data) = clean_date "Sep 28 2024".data :=
  ⟨by decide, C9_amended_idempotent_on_canonical "Sep 28 2024".data (by decide)⟩

/-- Pre-consistency of an extractor record: whenever both classification
fields are already set, they form one of the two legal pairs. -/
def txPreConsistent (tx : Tx) : Prop :=
  ∀ t s, tx.transaction_type = some t → tx.is_spending = some s →
    (t = "debit".data ∧ s = true) ∨ (t = "credit".data ∧ s = false)

theorem txPreConsistent_of_fields {tx : Tx} {t : List Char} {s : Bool}
    (h1 : tx.transaction_type = some t) (h2 : tx.is_spending = some s)
    (hok : (t = "debit".data ∧ s = true) ∨ (t = "credit".data ∧ s = false)) :
    txPreConsistent tx := by
  intro t' s' ht hs
  rw [h1] at ht
  rw [h2] at hs
  injection ht with ht'
  injection hs with hs'
  subst ht'
  subst hs'
  exact hok

theorem tangerineClassify_ok (d : List Char) (a : ℚ) :
    ((tangerineClassify d a).1 = "debit".data ∧ (tangerineClassify d a).2 = true) ∨
    ((tangerineClassify d a).1 = "credit".data ∧ (tangerineClassify d a).2 = false) := by
  unfold tangerineClassify
  split_ifs <;> simp

theorem parse_td_preconsistent :
    ∀ (line : List Char) (page : Nat) (sect : List Char) (tx : Tx),
      parse_td_transaction line page sect = some tx → txPreConsistent tx := by
  intro line page sect tx h
  rcases line with _ | ⟨c1, _ | ⟨c2, _ | ⟨c3, _ | ⟨c4, _ | ⟨c5, rest⟩⟩⟩⟩⟩
  all_goals simp only [parse_td_transaction] at h
  any_goals exact Option.noConfusion h
  split at h
  · split at h
    · injection h with h'
      subst h'
      refine txPreConsistent_of_fields rfl rfl ?_
      split_ifs <;> simp
    · exact Option.noConfusion h
  · exact Option.noConfusion h

theorem parse_tangerine_preconsistent :
    ∀ (line : List Char) (page : Nat) (tx : Tx),
      parse_tangerine_transaction line page = some tx → txPreConsistent tx := by
  intro line page tx h
  simp only [parse_tangerine_transaction] at h
  iterate 5 (all_goals try split at h)
  all_goals try exact Option.noConfusion h
  injection h with h'
  subst h'
  refine txPreConsistent_of_fields rfl rfl ?_
  exact tangerineClassify_ok _ _

theorem parse_tangerine_multiline_preconsistent :
    ∀ (lines : List (List Char)) (i page : Nat) (tx : Tx) (n : Nat),
      parse_tangerine_multiline lines i page = (some tx, n) → txPreConsistent tx := by
  intro lines i page tx n h
  simp only [parse_tangerine_multiline] at h
  split at h
  · rw [Prod.mk.injEq] at h
    exact parse_tangerine_preconsistent _ _ _ h.1
  · iterate 10 (all_goals try split at h)
    all_goals try (rw [Prod.mk.injEq] at h; exact Option.noConfusion h.1)
    all_goals
      (rw [Prod.mk.injEq] at h
       obtain ⟨h1, -⟩ := h
       injection h1 with h'
       subst h'
       refine txPreConsistent_of_fields rfl rfl ?_
       exact tangerineClassify_ok _ _)

theorem parse_rbc_preconsistent :
    ∀ (d line : List Char) (page : Nat) (tx : Tx),
      parse_rbc_transaction_line d line page = some tx → txPreConsistent tx := by
  intro d line page tx h
  simp only [parse_rbc_transaction_line] at h
  iterate 6 (all_goals try split at h)
  all_goals try exact Option.noConfusion h
  injection h with h'
  subst h'
  refine txPreConsistent_of_fields rfl rfl ?_
  split_ifs <;> simp

/-- C10: every record returned by a successful `process_document` carries
all five standardized fields, `abs_amount` equal to the magnitude of its
amount, a transaction_type that is debit or credit, and a spending flag
true exactly for debits — given extractor records whose pre-set
classification pairs are consistent, which the theorem also establishes
for the modelled extractors (TD, Tangerine single and multi-line, RBC). -/
theorem C10_output_invariant :
    (∀ (bank : List Char) (txs : List Tx) (tx : Tx), tx ∈ txs → txPreConsistent tx →
      classifyTx tx ∈ (process_document_success bank txs).transactions ∧
      ((classifyTx tx).transaction_type = some "debit".data ∨
        (classifyTx tx).transaction_type = some "credit".data) ∧
      ((classifyTx tx).is_spending = some true ↔
        (classifyTx tx).transaction_type = some "debit".data) ∧
      (classifyTx tx).is_spending.isSome = true ∧
      (classifyTx tx).abs_amount = some |(classifyTx tx).amount| ∧
      (classifyTx tx).processing_method.isSome = true ∧
      (classifyTx tx).confidence_level.isSome = true) ∧
    (∀ (line : List Char) (page : Nat) (sect : List Char) (tx : Tx),
      parse_td_transaction line page sect = some tx → txPreConsistent tx) ∧
    (∀ (line : List Char) (page : Nat) (tx : Tx),
      parse_tangerine_transaction line page = some tx → txPreConsistent tx) ∧
    (∀ (lines : List (List Char)) (i page : Nat) (tx : Tx) (n : Nat),
      parse_tangerine_multiline lines i page = (some tx, n) → txPreConsistent tx) ∧
    (∀ (d line : List Char) (page : Nat) (tx : Tx),
      parse_rbc_transaction_line d line page = some tx → txPreConsistent tx) := by
  refine ⟨?_, parse_td_preconsistent, parse_tangerine_preconsistent,
    parse_tangerine_multiline_preconsistent, parse_rbc_preconsistent⟩
  intro bank txs tx hmem hcons
  refine ⟨List.mem_map_of_mem _ hmem, ?_⟩
  by_cases hset : (tx.transaction_type.isNone || tx.is_spending.isNone) = true
  · by_cases hcc : is_credit_card_bank tx.bank = true
    · by_cases hpos : (0:ℚ) < tx.amount
      · simp [classifyTx, hset, hcc, hpos]
      · simp [classifyTx, hset, hcc, hpos]
    · have hcc' : is_credit_card_bank tx.bank = false := by simpa using hcc
      by_cases hneg : tx.amount < 0
      · simp [classifyTx, hset, hcc', hneg]
      · simp [classifyTx, hset, hcc', hneg]
  · obtain ⟨ht, hs⟩ : (∃ t, tx.transaction_type = some t) ∧
        ∃ s, tx.is_spending = some s := by
      constructor
      · cases hh : tx.transaction_type with
        | none => rw [hh] at hset; simp at hset
        | some t => exact ⟨t, rfl⟩
      · cases hh : tx.is_spending with
        | none => rw [hh] at hset; simp at hset
        | some s => exact ⟨s, rfl⟩
    obtain ⟨t, ht⟩ := ht
    obtain ⟨s, hs⟩ := hs
    rcases hcons t s ht hs with ⟨rfl, rfl⟩ | ⟨rfl, rfl⟩ <;>
      simp [classifyTx, hset, ht, hs]

/-- Concrete unclassified deposit-account record for the C10 witness. -/
def c10tx : Tx :=
  { date := "03-03".data, description := "WITHDRAWAL".data, amount := -20,
    page := 1, bank := "RBC Bank".data, confidence := 0.85 }

theorem C10_output_invariant_witness :
    ((classifyTx c10tx).transaction_type = some "debit".data ∨
      (classifyTx c10tx).transaction_type = some "credit".data) ∧
    (classifyTx c10tx).abs_amount = some |(classifyTx c10tx).amount| := by
  have h := C10_output_invariant.1 "RBC Bank".data [c10tx] c10tx (by simp)
    (fun t s h1 h2 => by simp [c10tx] at h1)
  exact ⟨h.2.1, h.2.2.2.2.1⟩
